import Mathlib

/-!
Verification development for the dual-LLM code verification system
(`verifier.py`, `system.py`, `failure_report.py`).

Modelling conventions (shallow embedding of the Python source):
* Python runtime values that can flow through test cases and candidate
  results are modelled by `PyVal`: ints, bools, floats, strings, `None`
  and (nested) lists.  Python floats are modelled as exact rationals plus
  an explicit `NaN` element (`PyFloat`); float rounding is not modelled,
  but the NaN propagation rules of comparison operators are.  String to
  float parsing (`float("1.5")`) is not modelled: `float()` applied to a
  string is modelled as raising, which is the behaviour for non-numeric
  strings.
* Fallible Python code is modelled with `Except PyExn _`; `PyExn`
  records whether the exception is a `TypeError` (the only exception
  class the harness dispatches on) and a message.  Exact CPython
  exception message texts are modelled by fixed placeholder strings;
  no claim compares the text of an arity-error message.
* A candidate callable is modelled by `PyFunc`: `inspect.signature`
  reports `numParams` parameters, of which the last
  `numParams - minParams` have defaults, so a call with `k` positional
  arguments binds iff `minParams ≤ k ≤ numParams`; `call` is the body.
* The external LLM collaborators (code generator, debugger), the regex
  based missing-module extraction and the `importlib` module
  availability lookup are environment-dependent effects; they are
  supplied as oracle functions in `Env`, indexed by the attempt number
  to capture their statefulness.  `repr`-style formatting of values in
  report text is likewise an oracle.
-/

namespace CV

/-- A Python float: a finite value (modelled as an exact rational) or NaN. -/
inductive PyFloat where
  | fin : ℚ → PyFloat
  | nan : PyFloat
deriving DecidableEq

/-- A Python runtime value, as can appear in test inputs, expected values and
candidate-function results: int, bool, float (finite or NaN), str, None, list. -/
inductive PyVal where
  | vint : ℤ → PyVal
  | vbool : Bool → PyVal
  | vfloat : ℚ → PyVal
  | vnan : PyVal
  | vstr : String → PyVal
  | vnone : PyVal
  | vlist : List PyVal → PyVal

/-- The float-tolerance used by `CodeVerifier._values_match`: `1e-9`. -/
def tol : ℚ := 1 / 1000000000

/-- `|a - e| < 1e-9` on Python floats; any comparison involving NaN is false. -/
def pfCloseTol : PyFloat → PyFloat → Bool
  | .fin a, .fin e => decide (|a - e| < tol)
  | _, _ => false

/-- `isinstance(x, float)`: floats and NaN (NaN is a float in Python). -/
def isFloatInst : PyVal → Bool
  | .vfloat _ => true
  | .vnan => true
  | _ => false

/-- `isinstance(x, (int, float))`: ints, bools (a `bool` is an `int` in
Python), floats and NaN. -/
def isNumInst : PyVal → Bool
  | .vint _ => true
  | .vbool _ => true
  | .vfloat _ => true
  | .vnan => true
  | _ => false

/-- The numeric value of a Python number (`bool` counts as 0/1), if any. -/
def numOf : PyVal → Option PyFloat
  | .vint n => some (.fin n)
  | .vbool b => some (.fin (if b then 1 else 0))
  | .vfloat q => some (.fin q)
  | .vnan => some .nan
  | _ => none

/-- `float(actual) - expected` compared against the tolerance, as in the
first branch of `_values_match`; false whenever an operand is NaN or either
value is non-numeric (the branch guard makes the latter unreachable). -/
def pyAbsDiffLt (actual expected : PyVal) : Bool :=
  match numOf actual, numOf expected with
  | some a, some e => pfCloseTol a e
  | _, _ => false

mutual

/-- Python `==` restricted to the modelled value universe: numbers compare by
numeric value across int/bool/float (`True == 1`, `2 == 2.0`), NaN is equal to
nothing (including itself), strings and `None` compare structurally, lists
compare element-wise, and cross-type comparisons are false. -/
def pyEq : PyVal → PyVal → Bool
  | .vint m, .vint n => m == n
  | .vint m, .vbool b => m == (if b then 1 else 0)
  | .vint m, .vfloat q => (m : ℚ) == q
  | .vbool a, .vbool b => a == b
  | .vbool b, .vint n => (if b then (1 : ℤ) else 0) == n
  | .vbool b, .vfloat q => (if b then (1 : ℚ) else 0) == q
  | .vfloat q, .vint n => q == (n : ℚ)
  | .vfloat q, .vbool b => q == (if b then (1 : ℚ) else 0)
  | .vfloat q, .vfloat r => q == r
  | .vstr s, .vstr t => s == t
  | .vnone, .vnone => true
  | .vlist xs, .vlist ys => pyEqList xs ys
  | _, _ => false

/-- Python `==` on lists: equal length and element-wise `==`. -/
def pyEqList : List PyVal → List PyVal → Bool
  | [], [] => true
  | x :: xs, y :: ys => pyEq x y && pyEqList xs ys
  | _, _ => false

end

/-- A Python exception: whether it is a `TypeError` (the only class the
harness catches selectively) and its message. -/
structure PyExn where
  isTypeError : Bool
  msg : String
deriving DecidableEq

/-- Placeholder message for the `TypeError` raised when a call does not
match the callee's parameter count. -/
def arityMsg : String := "positional arguments do not match the signature"

/-- The Python builtin `float(x)`.  Numbers convert (bools to 0/1, NaN stays
NaN); `None` and lists raise `TypeError`; strings are modelled as raising
(numeric-string parsing is not modelled). -/
def floatOfVal : PyVal → Except PyExn PyFloat
  | .vint n => .ok (.fin n)
  | .vbool b => .ok (.fin (if b then 1 else 0))
  | .vfloat q => .ok (.fin q)
  | .vnan => .ok .nan
  | .vstr _ => .error ⟨false, "could not convert string to float"⟩
  | .vnone => .error ⟨true, "float() argument must be a string or a real number, not NoneType"⟩
  | .vlist _ => .error ⟨true, "float() argument must be a string or a real number, not list"⟩

/-- One element comparison inside the list branch of `_values_match`:
`abs(float(a) - float(e)) < 1e-9 if isinstance(e, float) else a == e`.
The `float(a)` conversion can raise when `e` is a float but `a` is not
numeric. -/
def elemMatch (a e : PyVal) : Except PyExn Bool :=
  if isFloatInst e then
    match floatOfVal a with
    | .error ex => .error ex
    | .ok fa =>
      match floatOfVal e with
      | .error ex => .error ex
      | .ok fe => .ok (pfCloseTol fa fe)
  else
    .ok (pyEq a e)

/-- `all(...)` over the zipped element comparisons: evaluates left to right,
stops at the first false element (so a later exception is not raised), and
propagates the first exception encountered. -/
def matchAll : List (PyVal × PyVal) → Except PyExn Bool
  | [] => .ok true
  | (a, e) :: rest =>
    match elemMatch a e with
    | .error ex => .error ex
    | .ok false => .ok false
    | .ok true => matchAll rest

/-- `CodeVerifier._values_match(actual, expected)`.  Branch 1: `expected` is a
float instance and `actual` is numeric, tolerant comparison.  Branch 2: both
lists, length check then element-wise comparison (which can raise).  Default:
Python `==`. -/
def values_match (actual expected : PyVal) : Except PyExn Bool :=
  if isFloatInst expected && isNumInst actual then
    .ok (pyAbsDiffLt actual expected)
  else
    match actual, expected with
    | .vlist av, .vlist ev =>
      if ev.length ≠ av.length then .ok false
      else matchAll (av.zip ev)
    | a, e => .ok (pyEq a e)

/-- A candidate callable, as the harness sees it.  `inspect.signature`
reports `numParams` parameters; the last `numParams - minParams` of them
have default values, so a call with `k` positional arguments binds iff
`minParams ≤ k ≤ numParams`.  `call` is the function body, applied to the
positional arguments actually passed. -/
structure PyFunc where
  minParams : Nat
  numParams : Nat
  call : List PyVal → Except PyExn PyVal

/-- Calling a Python function with a list of positional arguments: an
argument count that does not bind raises `TypeError` before the body runs. -/
def PyFunc.apply (f : PyFunc) (args : List PyVal) : Except PyExn PyVal :=
  if f.minParams ≤ args.length ∧ args.length ≤ f.numParams then f.call args
  else .error ⟨true, arityMsg⟩

/-- The shape of a test case's `input` field, mirroring the `isinstance`
dispatch in `_run_single_test`: a Python list, a tuple, or a bare scalar
(`iscalar` carries any non-list, non-tuple value). -/
inductive TestInput where
  | ilist : List PyVal → TestInput
  | ituple : List PyVal → TestInput
  | iscalar : PyVal → TestInput

/-- The argument-binding and call logic of `CodeVerifier._run_single_test`
(verifier.py lines 106-143): empty lists are special-cased (arity 1 gets the
empty list, otherwise a zero-argument call); a non-empty list goes whole to a
1-parameter function, unpacks when its length equals the parameter count, and
otherwise is unpacked with a fallback to a single-argument call if the
unpacked call raises `TypeError`; tuples always unpack; scalars are passed as
the sole argument. -/
def run_call (f : PyFunc) (inputs : TestInput) : Except PyExn PyVal :=
  match inputs with
  | .ilist xs =>
    if xs.length = 0 then
      if f.numParams = 1 then f.apply [.vlist xs] else f.apply []
    else if f.numParams = 1 then
      f.apply [.vlist xs]
    else if f.numParams = xs.length then
      f.apply xs
    else
      match f.apply xs with
      | .ok v => .ok v
      | .error e => if e.isTypeError then f.apply [.vlist xs] else .error e
  | .ituple xs => f.apply xs
  | .iscalar v => f.apply [v]

/-- A test case: `{input, expected, description}` (a missing description is
modelled as the empty string, matching `test.get('description', '')`). -/
structure TestCase where
  input : TestInput
  expected : PyVal
  description : String

/-- Outcome classification of one test. -/
inductive Status where
  | PASS
  | FAIL
  | ERROR
deriving DecidableEq

/-- One per-test outcome record, as built by `_run_single_test`: the `actual`
field holds the produced value, or the string `"ERROR: " ++ message` when an
exception was caught. -/
structure TestOutcome where
  test_num : Nat
  input : TestInput
  expected : PyVal
  actual : Except String PyVal
  status : Status
  description : String

/-- `CodeVerifier._run_single_test`: call the function on the bound
arguments, compare with `_values_match`, classify PASS/FAIL; any exception
raised by the call or by the comparison is caught and classified ERROR. -/
def run_single_test (f : PyFunc) (t : TestCase) (n : Nat) : TestOutcome :=
  match run_call f t.input with
  | .error e => ⟨n, t.input, t.expected, .error ("ERROR: " ++ e.msg), .ERROR, t.description⟩
  | .ok actual =>
    match values_match actual t.expected with
    | .error e => ⟨n, t.input, t.expected, .error ("ERROR: " ++ e.msg), .ERROR, t.description⟩
    | .ok true => ⟨n, t.input, t.expected, .ok actual, .PASS, t.description⟩
    | .ok false => ⟨n, t.input, t.expected, .ok actual, .FAIL, t.description⟩

/-- The per-test loop of `CodeVerifier.verify`, numbering tests from 1
(`enumerate(test_cases, 1)`). -/
def run_tests (f : PyFunc) : List TestCase → Nat → List TestOutcome
  | [], _ => []
  | t :: ts, n => run_single_test f t n :: run_tests f ts (n + 1)

/-- One binding of the namespace produced by `exec`-ing the candidate, in
insertion (declaration) order; `func = some f` iff the bound object is
callable. -/
structure NsEntry where
  name : String
  func : Option PyFunc

/-- A candidate program as the harness observes it: its source text, whether
`ast.parse` succeeds (with the syntax-error message otherwise), whether
`exec` succeeds (with the error message otherwise), and the resulting
namespace. -/
structure Candidate where
  src : String
  parseOk : Bool
  parseMsg : String
  execOk : Bool
  execMsg : String
  ns : List NsEntry

/-- `name.startswith('_')`: since the needle is the single character `'_'`,
this is exactly a first-character test (modelled this way to stay
kernel-computable). -/
def startsUnderscore (s : String) : Bool :=
  match s.data with
  | [] => false
  | c :: _ => c == '_'

/-- `CodeVerifier._find_function`: the first namespace binding that is
callable and whose name does not start with an underscore. -/
def find_function : List NsEntry → Option (String × PyFunc)
  | [] => none
  | e :: rest =>
    match e.func with
    | some f =>
      if startsUnderscore e.name then find_function rest else some (e.name, f)
    | none => find_function rest

/-- `CodeVerifier.verify(code, test_cases)`: syntax check, load, entry-point
lookup, then the per-test loop; returns `(all_passed, test_results,
message)`.  The `self.last_verification` slot is process-global logging state
and is not modelled. -/
def verify (c : Candidate) (tests : List TestCase) : Bool × List TestOutcome × String :=
  if c.parseOk = false then
    (false, [], "Syntax Error: " ++ c.parseMsg)
  else if c.execOk = false then
    (false, [], "Execution Error: " ++ c.execMsg)
  else
    match find_function c.ns with
    | none => (false, [], "No function found in generated code")
    | some (_, f) =>
      let results := run_tests f tests 1
      let all_passed := results.all (fun r => r.status == Status.PASS)
      if all_passed then
        (true, results, "All " ++ toString tests.length ++ " tests passed")
      else
        let failed := (results.filter (fun r => !(r.status == Status.PASS))).length
        (false, results, toString failed ++ "/" ++ toString tests.length ++ " tests failed")

/-- One entry of the run history, appended per loop iteration in
`generate_verified_code`: `{attempt, code, passed, test_results, error}`
(`error` is `None` when the attempt passed). -/
structure AttemptRec where
  attempt : Nat
  code : Candidate
  passed : Bool
  test_results : List TestOutcome
  error : Option String

/-- The result dictionary of `generate_verified_code`.  `attempts = none`
models the early-return dictionary that carries no `attempts` key.
`genCalls` and `debugCalls` are instrumentation counting invocations of the
code-generation and debug collaborators; they are not fields of the Python
dictionary. -/
structure SysResult where
  success : Bool
  code : Option Candidate
  attempts : Option Nat
  message : String
  error : Option String
  test_results : List TestOutcome
  history : List AttemptRec
  debug_report : Option String
  genCalls : Nat
  debugCalls : Nat

/-- The environment of one run: the generated test cases and the oracles for
all environment-dependent effects.  `gen a fb` is the candidate produced by
the code-generation collaborator at attempt `a` given feedback `fb`;
`debug a c outcomes err fb` is the debugger's feedback text;
`missingMods`/`modAvail` stand for the regex-based missing-module extraction
and the `importlib` availability lookup of `failure_report.py`; `reprI` and
`reprV` are Python `str()` formatting of values. -/
structure Env where
  tests : List TestCase
  gen : Nat → Option String → Candidate
  debug : Nat → Candidate → List TestOutcome → String → Option String → String
  missingMods : String → List TestOutcome → String → List String
  modAvail : String → Bool
  reprI : TestInput → String
  reprV : PyVal → String

/-- `"=" * 70`. -/
def sep70 : String := String.mk (List.replicate 70 (Char.ofNat 61))

/-- `"-" * 70`. -/
def dash70 : String := String.mk (List.replicate 70 (Char.ofNat 45))

/-- `FailureReportGenerator.check_module_availability`'s message (the
`find_spec` exception branch is folded into the availability oracle). -/
def availabilityMsg (ok : Bool) (m : String) : String :=
  if ok then "✓ Module '" ++ m ++ "' is installed"
  else "✗ Module '" ++ m ++ "' is NOT installed"

/-- The per-module lines of the missing-modules section of the report. -/
def moduleLines (avail : String → Bool) (m : String) : List String :=
  ["📦 Module: " ++ m, "   " ++ availabilityMsg (avail m) m] ++
    (if avail m then [] else ["   💡 Fix: pip install " ++ m]) ++ [""]

/-- The detail lines the report prints for one failed or errored test. -/
def failureLines (reprI : TestInput → String) (reprV : PyVal → String)
    (t : TestOutcome) : List String :=
  ["\n❌ Test " ++ toString t.test_num ++ ": " ++ t.description,
   "   Input: " ++ reprI t.input,
   "   Expected: " ++ reprV t.expected,
   "   Got: " ++ (match t.actual with | .ok v => reprV v | .error s => s)]

/-- The numbered remediation checklist at the end of the report. -/
def recommendationLines (missing : List String) (avail : String → Bool) : List String :=
  if missing.isEmpty then
    ["1. Review the debugger analysis in iteration logs above",
     "2. Manually fix the code based on test failures",
     "3. Check if your Python environment has required dependencies",
     "4. Try a simpler version of the problem first"]
  else
    ["1. Install missing modules:"] ++
      (missing.filter (fun m => !(avail m))).map (fun m => "   pip install " ++ m) ++
      ["2. Review the debugger analysis in iteration logs above",
       "3. Manually fix the code based on test failures",
       "4. Check if your Python environment has required dependencies",
       "5. Try a simpler version of the problem first"]

/-- `FailureReportGenerator.generate_report`, as the list of lines that are
joined with newlines: header, attempts/status/error lines, optional
missing-module section, test-result summary with up to five failure details,
the (possibly truncated) last candidate source, and the remediation
checklist. -/
def generate_report (reprI : TestInput → String) (reprV : PyVal → String)
    (missing : List String) (avail : String → Bool)
    (attempts maxAttempts : Nat) (error : String)
    (test_results : List TestOutcome) (code : String) : List String :=
  ["\n" ++ sep70,
   "📋 DEBUGGING REPORT FOR USER",
   sep70,
   "\n🔄 Attempts Made: " ++ toString attempts ++ "/" ++ toString maxAttempts,
   "❌ Final Status: FAILED",
   "💬 Error: " ++ error ++ "\n"] ++
  (if missing.isEmpty then [] else
    [sep70, "🔍 ISSUE DETECTED: Missing Python Modules", sep70,
     "The generated code requires modules that may not be installed:\n"] ++
      missing.flatMap (moduleLines avail)) ++
  [sep70, "📊 TEST RESULTS SUMMARY", sep70] ++
  (if test_results.isEmpty then [] else
    let total := test_results.length
    let passed := (test_results.filter (fun t => t.status == Status.PASS)).length
    let failedc := (test_results.filter (fun t => t.status == Status.FAIL)).length
    let errs := (test_results.filter (fun t => t.status == Status.ERROR)).length
    ["✓ Passed: " ++ toString passed ++ "/" ++ toString total,
     "✗ Failed: " ++ toString failedc ++ "/" ++ toString total,
     "⚠️  Errors: " ++ toString errs ++ "/" ++ toString total ++ "\n"] ++
      (let failures := test_results.filter (fun t => !(t.status == Status.PASS))
       if failures.isEmpty then [] else
         ["Failed/Error Test Details:", dash70] ++
           (failures.take 5).flatMap (failureLines reprI reprV) ++
           (if failures.length > 5 then
             ["\n... and " ++ toString (failures.length - 5) ++ " more failures"]
           else []))) ++
  ["\n" ++ sep70, "📝 LAST GENERATED CODE", sep70] ++
  (let codeT :=
    if code.length > 1500 then
      code.take 1500 ++ "\n\n... (truncated, showing first 1500 chars)"
    else code
   ["```", codeT, "```"]) ++
  ["\n" ++ sep70, "💡 WHAT YOU CAN DO", sep70] ++
  recommendationLines missing avail ++
  ["\n" ++ sep70]

/-- The `for attempt in range(1, max_attempts + 1)` loop of
`generate_verified_code`, with `remaining` counting the iterations left
(`attempt + remaining = maxA + 1` at every call).  Each iteration generates a
candidate (passing the current feedback), verifies it, appends an
`AttemptRec`, returns the success dictionary if all tests passed, and
otherwise consults the debugger when `attempt < maxA`.  When the loop
exhausts, the failure dictionary is built, including the report (when
`max_attempts = 0` the Python code would raise `len(None)` inside
`generate_report`; the model yields no report in that unreachable
configuration). -/
def run_loop (env : Env) (maxA : Nat) :
    Nat → Nat → Option String → Option String → Option Candidate →
    List TestOutcome → String → List AttemptRec → Nat → Nat → SysResult
  | 0, _, _, _, lastCode, lastResults, lastErr, hist, g, d =>
    { success := false
      code := lastCode
      attempts := some maxA
      message := "Failed after " ++ toString maxA ++ " attempts"
      error := some lastErr
      test_results := lastResults
      history := hist
      debug_report := lastCode.map (fun c =>
        String.intercalate "\n"
          (generate_report env.reprI env.reprV
            (env.missingMods lastErr lastResults c.src) env.modAvail
            maxA maxA lastErr lastResults c.src))
      genCalls := g
      debugCalls := d }
  | r + 1, attempt, fb, pfb, _, _, _, hist, g, d =>
    let code := env.gen attempt fb
    let v := verify code env.tests
    let hist2 := hist ++ [⟨attempt, code, v.1, v.2.1, if v.1 then none else some v.2.2⟩]
    if v.1 then
      { success := true
        code := some code
        attempts := some attempt
        message := "All " ++ toString env.tests.length ++ " tests passed"
        error := none
        test_results := v.2.1
        history := hist2
        debug_report := none
        genCalls := g + 1
        debugCalls := d }
    else if attempt < maxA then
      let failed := v.2.1.filter (fun r => !(r.status == Status.PASS))
      let fb2 := env.debug attempt code failed v.2.2 (if attempt > 1 then pfb else none)
      run_loop env maxA r (attempt + 1) (some fb2) (some fb2) (some code)
        v.2.1 v.2.2 hist2 (g + 1) (d + 1)
    else
      run_loop env maxA r (attempt + 1) fb pfb (some code)
        v.2.1 v.2.2 hist2 (g + 1) d

/-- `DualLLMCodeVerificationSystem.generate_verified_code`: if the external
test generator produced no test cases, return the failure dictionary
immediately (no `attempts` key, empty history, no collaborator calls);
otherwise run the bounded attempt loop starting at attempt 1 with no
feedback, `code = None`, `test_results = []` and
`error_msg = "Unknown error"`. -/
def generate_verified_code (env : Env) (maxA : Nat) : SysResult :=
  if env.tests.length = 0 then
    { success := false
      code := none
      attempts := none
      message := "Failed to generate test cases"
      error := none
      test_results := []
      history := []
      debug_report := none
      genCalls := 0
      debugCalls := 0 }
  else
    run_loop env maxA maxA 1 none none none [] "Unknown error" [] 0 0

mutual

/-- `x` contains no NaN anywhere (NaN is the one value Python's `==` does
not relate to itself). -/
def noNaN : PyVal → Bool
  | .vnan => false
  | .vlist xs => noNaNList xs
  | _ => true

/-- No element of the list contains a NaN. -/
def noNaNList : List PyVal → Bool
  | [] => true
  | x :: xs => noNaN x && noNaNList xs

end

/-! Concrete instances used by counterexamples and witnesses. -/

/-- A 2-parameter callable whose second parameter has a default
(`def f(a, b=...)`), with a body that always returns `42`. -/
def demoF12 : PyFunc := ⟨1, 2, fun _ => .ok (.vint 42)⟩

/-- A 2-parameter callable returning the list of its arguments. -/
def demoF22 : PyFunc := ⟨2, 2, fun args => .ok (.vlist args)⟩

/-- A 1-parameter callable that always returns `[None]`. -/
def demoF5 : PyFunc := ⟨1, 1, fun _ => .ok (.vlist [.vnone])⟩

/-- A test case expecting `[1.5]` on a scalar input. -/
def demoT5 : TestCase := ⟨.iscalar (.vint 0), .vlist [.vfloat (3 / 2)], ""⟩

/-- A test case with an empty-list input. -/
def demoT10 : TestCase := ⟨.ilist [], .vint 0, ""⟩

/-- A candidate whose source fails the static syntax check. -/
def failCand : Candidate := ⟨"def f(:", false, "invalid syntax", false, "", []⟩

/-- Two trivial test cases. -/
def demoTests2 : List TestCase :=
  [⟨.iscalar (.vint 1), .vint 1, ""⟩, ⟨.iscalar (.vint 2), .vint 4, ""⟩]

/-- A 1-parameter callable that always returns `7`. -/
def demoFok : PyFunc := ⟨1, 1, fun _ => .ok (.vint 7)⟩

/-- A well-formed candidate declaring the single public function `solve`. -/
def demoCandOk : Candidate :=
  ⟨"def solve(x):\n    return 7", true, "", true, "", [⟨"solve", some demoFok⟩]⟩

/-- A namespace with a private helper declared before the public entry. -/
def demoNs : List NsEntry := [⟨"_helper", some demoF12⟩, ⟨"solve", some demoFok⟩]

/-- An environment whose generator always returns `demoCandOk` and whose
single test passes. -/
def demoEnvOk : Env :=
  { tests := [⟨.iscalar (.vint 3), .vint 7, ""⟩]
    gen := fun _ _ => demoCandOk
    debug := fun _ _ _ _ _ => "feedback"
    missingMods := fun _ _ _ => []
    modAvail := fun _ => true
    reprI := fun _ => "<input>"
    reprV := fun _ => "<value>" }

/-- An environment whose generator always returns the syntactically invalid
candidate, so every attempt's verification fails. -/
def demoEnvFail : Env :=
  { tests := [⟨.iscalar (.vint 1), .vint 1, ""⟩]
    gen := fun _ _ => failCand
    debug := fun _ _ _ _ _ => "try again"
    missingMods := fun _ _ _ => []
    modAvail := fun _ => true
    reprI := fun _ => "<input>"
    reprV := fun _ => "<value>" }

/-- An environment whose external test generator returned no test cases. -/
def demoEnvEmpty : Env :=
  { tests := []
    gen := fun _ _ => demoCandOk
    debug := fun _ _ _ _ _ => "feedback"
    missingMods := fun _ _ _ => []
    modAvail := fun _ => true
    reprI := fun _ => "<input>"
    reprV := fun _ => "<value>" }

/-- The loop invariant relating a suffix run of the attempt loop (starting
at `attempt` with accumulated history `hist`) to its final result: the
history grows by a block of consecutively numbered attempt records, the
returned `attempts` value is the index of the last record, failure means the
budget was exhausted, and a passing record can only be the final one of a
successful run. -/
def loopInv (maxA attempt : Nat) (hist : List AttemptRec) (res : SysResult) : Prop :=
  ∃ tail,
    res.history = hist ++ tail ∧
    tail.map (fun a => a.attempt) = List.range' attempt tail.length ∧
    res.attempts = some (attempt - 1 + tail.length) ∧
    (res.success = false → attempt - 1 + tail.length = maxA) ∧
    (res.success = true → ∃ recd ∈ tail, recd.passed = true) ∧
    (∀ recd ∈ tail, recd.passed = true →
      res.success = true ∧ recd.attempt = attempt - 1 + tail.length)

/-! ## C1: harness-level failures -/

/-- C1 (amended): on a harness-level failure (syntax check fails, the
candidate fails to load, or no entry function is found), `verify` returns
`all_passed = false`, an EMPTY outcomes list (not one outcome per test
case), and the run-level failure message. -/
theorem verify_harness_failure_empty_outcomes (c : Candidate) (tests : List TestCase) :
    (c.parseOk = false →
      verify c tests = (false, [], "Syntax Error: " ++ c.parseMsg)) ∧
    (c.parseOk = true → c.execOk = false →
      verify c tests = (false, [], "Execution Error: " ++ c.execMsg)) ∧
    (c.parseOk = true → c.execOk = true → find_function c.ns = none →
      verify c tests = (false, [], "No function found in generated code")) := by
  refine ⟨fun h1 => ?_, fun h1 h2 => ?_, fun h1 h2 h3 => ?_⟩ <;>
    simp [verify, h1]
  · simp [h2]
  · simp [h2, h3]

/-- C1 counterexample: for a syntactically invalid candidate and a two-test
list, `verify` returns an empty outcomes list (length 0, not 2), so the test
cases are not each classified `ERROR`. -/
theorem verify_parse_failure_cex :
    verify failCand demoTests2 = (false, [], "Syntax Error: invalid syntax") ∧
    demoTests2.length = 2 := by
  exact ⟨rfl, rfl⟩

/-- Instantiation of `verify_harness_failure_empty_outcomes`. -/
theorem verify_harness_failure_empty_outcomes_witness :
    verify failCand demoTests2 = (false, [], "Syntax Error: invalid syntax") :=
  (verify_harness_failure_empty_outcomes failCand demoTests2).1 rfl

/-! ## C10: empty-sequence inputs are special-cased -/

/-- C10: an empty-list input is dispatched before all other sequence rules:
arity 1 receives the empty list as the sole argument, any other arity gets a
zero-argument call, and if that zero-argument call raises, the exception
propagates unchanged (no fallback to a single-argument call) and the test is
classified `ERROR`. -/
theorem empty_input_binding (f : PyFunc) (ex : PyExn) (t : TestCase) (n : Nat) :
    (f.numParams = 1 → run_call f (.ilist []) = f.apply [.vlist []]) ∧
    (f.numParams ≠ 1 → run_call f (.ilist []) = f.apply []) ∧
    (f.numParams ≠ 1 → f.apply [] = .error ex → run_call f (.ilist []) = .error ex) ∧
    (t.input = .ilist [] → f.numParams ≠ 1 → f.apply [] = .error ex →
      (run_single_test f t n).status = Status.ERROR) := by
  refine ⟨fun h1 => ?_, fun h1 => ?_, fun h1 h2 => ?_, fun h0 h1 h2 => ?_⟩
  · simp [run_call, h1]
  · simp [run_call, h1]
  · simp [run_call, h1, h2]
  · simp [run_single_test, h0, run_call, h1, h2]

/-- Instantiation of `empty_input_binding`: a 2-parameter function with one
default (`def f(a, b=...)`) on the empty-list input gives an `ERROR`
outcome. -/
theorem empty_input_binding_witness :
    (run_single_test demoF12 demoT10 1).status = Status.ERROR :=
  (empty_input_binding demoF12 ⟨true, arityMsg⟩ demoT10 1).2.2.2 rfl
    (by decide) rfl

/-! ## C3: argument-binding precedence -/

/-- C3 counterexample: input is the empty sequence and the entry function
has arity 2 (second parameter defaulted).  The stated fallback rule would
recover: the single-argument call `f([])` succeeds with `42`.  The code
instead raises the arity `TypeError` from the zero-argument call with no
fallback, because empty sequences are special-cased. -/
theorem empty_seq_no_fallback_cex :
    run_call demoF12 (TestInput.ilist []) = .error ⟨true, arityMsg⟩ ∧
    demoF12.apply [PyVal.vlist []] = .ok (PyVal.vint 42) := by
  exact ⟨rfl, rfl⟩

/-- C3 (amended): the stated binding precedence holds for NON-empty
sequences — arity 1 takes the whole sequence, a length equal to the arity
unpacks positionally, any other combination attempts a positional unpack and
falls back to a single-argument call if (and only if) the unpacked call
raised a `TypeError` — and tuples always unpack while scalars pass through
as the sole argument.  (Empty sequences are special-cased, see the
counterexample; the fallback triggers on any `TypeError`, not only
arity mismatches.) -/
theorem arg_binding_precedence (f : PyFunc) (xs ys : List PyVal) (v r : PyVal) (e : PyExn) :
    (xs ≠ [] → f.numParams = 1 → run_call f (.ilist xs) = f.apply [.vlist xs]) ∧
    (xs ≠ [] → f.numParams ≠ 1 → f.numParams = xs.length →
      run_call f (.ilist xs) = f.apply xs) ∧
    (xs ≠ [] → f.numParams ≠ 1 → f.numParams ≠ xs.length → f.apply xs = .ok r →
      run_call f (.ilist xs) = .ok r) ∧
    (xs ≠ [] → f.numParams ≠ 1 → f.numParams ≠ xs.length → f.apply xs = .error e →
      e.isTypeError = true → run_call f (.ilist xs) = f.apply [.vlist xs]) ∧
    (xs ≠ [] → f.numParams ≠ 1 → f.numParams ≠ xs.length → f.apply xs = .error e →
      e.isTypeError = false → run_call f (.ilist xs) = .error e) ∧
    (run_call f (.ituple ys) = f.apply ys) ∧
    (run_call f (.iscalar v) = f.apply [v]) := by
  have hlen : xs ≠ [] → xs.length ≠ 0 := fun h hc => h (List.length_eq_zero.mp hc)
  refine ⟨fun h0 h1 => ?_, fun h0 h1 h2 => ?_, fun h0 h1 h2 h3 => ?_,
          fun h0 h1 h2 h3 h4 => ?_, fun h0 h1 h2 h3 h4 => ?_, rfl, rfl⟩
  · simp [run_call, hlen h0, h1]
  · have hx : xs.length ≠ 1 := h2 ▸ h1
    simp [run_call, hlen h0, h2, hx]
  · simp [run_call, hlen h0, h1, h2, h3]
  · simp [run_call, hlen h0, h1, h2, h3, h4]
  · simp [run_call, hlen h0, h1, h2, h3, h4]

/-- Instantiation of `arg_binding_precedence`: arity 2 with input `[3, 5]`
calls the entry as `entry(3, 5)` (positional unpack). -/
theorem arg_binding_precedence_witness :
    run_call demoF22 (TestInput.ilist [PyVal.vint 3, PyVal.vint 5]) =
      demoF22.apply [PyVal.vint 3, PyVal.vint 5] :=
  (arg_binding_precedence demoF22 [PyVal.vint 3, PyVal.vint 5] [] PyVal.vnone
      PyVal.vnone ⟨true, arityMsg⟩).2.1 (by simp) (by decide) (by decide)

/-! ## C9: entry-function selection -/

/-- An entry qualifies as the entry function iff it is callable and its name
does not start with an underscore. -/
def qualifies (e : NsEntry) : Prop := e.func ≠ none ∧ startsUnderscore e.name = false

lemma find_function_some_split (ns : List NsEntry) (nm : String) (f : PyFunc)
    (h : find_function ns = some (nm, f)) :
    ∃ pre e post, ns = pre ++ e :: post ∧ e.name = nm ∧ e.func = some f ∧
      startsUnderscore e.name = false ∧ ∀ e' ∈ pre, ¬ qualifies e' := by
  induction ns with
  | nil => simp [find_function] at h
  | cons e rest ih =>
    by_cases hf : ∃ g, e.func = some g
    · obtain ⟨g, hg⟩ := hf
      by_cases hu : startsUnderscore e.name = true
      · have h' : find_function rest = some (nm, f) := by
          simpa [find_function, hg, hu] using h
        obtain ⟨pre, e', post, h1, h2, h3, h4, h5⟩ := ih h'
        exact ⟨e :: pre, e', post, by simp [h1], h2, h3, h4, by
          intro x hx
          rcases List.mem_cons.mp hx with hx | hx
          · subst hx; exact fun hq => by simp [qualifies, hu] at hq
          · exact h5 x hx⟩
      · have hu' : startsUnderscore e.name = false := by
          revert hu; cases startsUnderscore e.name <;> simp
        have h' : some (e.name, g) = some (nm, f) := by
          simpa [find_function, hg, hu'] using h
        have h1 : e.name = nm := by injection h' with h''; exact congrArg Prod.fst h''
        have h2 : g = f := by injection h' with h''; exact congrArg Prod.snd h''
        exact ⟨[], e, rest, by simp, h1, h2 ▸ hg, hu', by simp⟩
    · have hg : e.func = none := by
        cases hfe : e.func with
        | none => rfl
        | some g => exact absurd ⟨g, hfe⟩ hf
      have h' : find_function rest = some (nm, f) := by
        simpa [find_function, hg] using h
      obtain ⟨pre, e', post, h1, h2, h3, h4, h5⟩ := ih h'
      exact ⟨e :: pre, e', post, by simp [h1], h2, h3, h4, by
        intro x hx
        rcases List.mem_cons.mp hx with hx | hx
        · subst hx; exact fun hq => hq.1 hg
        · exact h5 x hx⟩

lemma find_function_none_all (ns : List NsEntry) (h : find_function ns = none) :
    ∀ e ∈ ns, ¬ qualifies e := by
  induction ns with
  | nil => simp
  | cons e rest ih =>
    intro x hx
    cases hfe : e.func with
    | none =>
      have h' : find_function rest = none := by simpa [find_function, hfe] using h
      rcases List.mem_cons.mp hx with hx | hx
      · subst hx; exact fun hq => hq.1 hfe
      · exact ih h' x hx
    | some g =>
      by_cases hu : startsUnderscore e.name = true
      · have h' : find_function rest = none := by simpa [find_function, hfe, hu] using h
        rcases List.mem_cons.mp hx with hx | hx
        · subst hx; exact fun hq => by simp [qualifies, hu] at hq
        · exact ih h' x hx
      · exfalso
        have hu' : startsUnderscore e.name = false := by
          revert hu; cases startsUnderscore e.name <;> simp
        simp [find_function, hfe, hu'] at h

/-- C9: entry-function selection returns the first qualifying (callable,
publicly named) binding in declaration order; when none qualifies the
harness returns the run-level no-entry-function error and the attempt fails
(`all_passed = false`, empty outcomes). -/
theorem entry_selection_first_public (ns : List NsEntry) :
    (∀ nm f, find_function ns = some (nm, f) →
      ∃ pre e post, ns = pre ++ e :: post ∧ e.name = nm ∧ e.func = some f ∧
        startsUnderscore e.name = false ∧ ∀ e' ∈ pre, ¬ qualifies e') ∧
    (find_function ns = none → ∀ e ∈ ns, ¬ qualifies e) ∧
    (∀ c tests, c.parseOk = true → c.execOk = true → c.ns = ns →
      find_function ns = none →
      verify c tests = (false, [], "No function found in generated code")) := by
  refine ⟨fun nm f h => find_function_some_split ns nm f h,
          fun h => find_function_none_all ns h,
          fun c tests h1 h2 h3 h4 => ?_⟩
  simp [verify, h1, h2, h3, h4]

/-- Instantiation of `entry_selection_first_public`: in a namespace whose
first callable is underscore-named, the second (public) one is selected. -/
theorem entry_selection_first_public_witness :
    ∃ pre e post, demoNs = pre ++ e :: post ∧ e.name = "solve" ∧
      e.func = some demoFok ∧ startsUnderscore e.name = false ∧
      ∀ e' ∈ pre, ¬ qualifies e' :=
  (entry_selection_first_public demoNs).1 "solve" demoFok rfl

/-! ## C4: the tolerant comparison is keyed on the expected side -/

/-- C4 counterexample: `actual = 2 + 1e-10` (a non-integral number),
`expected = 2` (an int).  The two differ by less than `1e-9`, so the claim
declares them matching; the code compares exactly (the tolerant branch fires
only when `expected` is a float) and declares them not matching. -/
theorem tolerance_not_symmetric_cex :
    values_match (PyVal.vfloat (2 + 1 / 10000000000)) (PyVal.vint 2) = .ok false ∧
    |(2 + 1 / 10000000000 : ℚ) - 2| < tol ∧
    ∀ n : ℤ, (2 + 1 / 10000000000 : ℚ) ≠ (n : ℚ) := by
  refine ⟨?_, ?_, ?_⟩
  · have : ((2 + 1 / 10000000000 : ℚ) = ((2 : ℤ) : ℚ)) = False := by
      simp only [eq_iff_iff, iff_false]
      norm_num
    simp [values_match, isFloatInst, isNumInst, pyEq, this]
  · rw [tol, show (2 + 1 / 10000000000 : ℚ) - 2 = 1 / 10000000000 by ring,
      abs_of_pos (by norm_num : (0 : ℚ) < 1 / 10000000000)]
    norm_num
  · intro n h
    have h2 : (2 : ℚ) < (n : ℚ) := by rw [← h]; norm_num
    have h3 : (n : ℚ) < 3 := by rw [← h]; norm_num
    have h2' : (2 : ℤ) < n := by exact_mod_cast h2
    have h3' : n < (3 : ℤ) := by exact_mod_cast h3
    omega

/-- C4 (amended): for a numeric `actual` with finite value `r`, the tolerant
comparison applies exactly when `expected` is a float: against a float
`expected` the values match iff `|r − expected| < 1e-9`, while against an
int `expected` the comparison is exact numeric equality, regardless of
whether either value is integral. -/
theorem float_tolerance_expected_side (a : PyVal) (r : ℚ)
    (h : numOf a = some (.fin r)) :
    (∀ q : ℚ, values_match a (.vfloat q) = .ok (decide (|r - q| < tol))) ∧
    (∀ n : ℤ, values_match a (.vint n) = .ok (decide (r = (n : ℚ)))) := by
  constructor
  · intro q
    cases a <;> simp_all [numOf, values_match, isFloatInst, isNumInst, pyAbsDiffLt, pfCloseTol]
  · intro n
    have beqZ : ∀ m k : ℤ, (m == k) = decide ((m : ℚ) = (k : ℚ)) := by
      intro m k
      by_cases hmk : m = k
      · simp [hmk]
      · have : ¬ ((m : ℚ) = (k : ℚ)) := fun hc => hmk (by exact_mod_cast hc)
        simp [hmk, this]
    have beqQ : ∀ x y : ℚ, (x == y) = decide (x = y) := by
      intro x y
      by_cases hxy : x = y <;> simp [hxy]
    cases a with
    | vint m =>
      have hm : (m : ℚ) = r := by simpa [numOf] using h
      subst hm
      simp [values_match, isFloatInst, isNumInst, pyEq, beqZ]
    | vbool b =>
      have hb : ((if b then 1 else 0 : ℚ)) = r := by
        cases b <;> simpa [numOf] using h
      subst hb
      cases b <;> simp [values_match, isFloatInst, isNumInst, pyEq, beqZ]
    | vfloat q =>
      have hq : q = r := by simpa [numOf] using h
      subst hq
      simp [values_match, isFloatInst, isNumInst, pyEq, beqQ]
    | vnan => simp [numOf] at h
    | vstr s => simp [numOf] at h
    | vnone => simp [numOf] at h
    | vlist xs => simp [numOf] at h

/-- Instantiation of `float_tolerance_expected_side` at `actual = 2`,
`expected = 2.0`. -/
theorem float_tolerance_expected_side_witness :
    values_match (PyVal.vint 2) (PyVal.vfloat 2) = .ok (decide (|(2 : ℚ) - 2| < tol)) :=
  (float_tolerance_expected_side (PyVal.vint 2) 2 (by simp [numOf])).1 2

/-! ## C6: reflexivity of the matcher -/

mutual

theorem pyEq_refl : (x : PyVal) → noNaN x = true → pyEq x x = true
  | .vint n, _ => by simp [pyEq]
  | .vbool b, _ => by simp [pyEq]
  | .vfloat q, _ => by simp [pyEq]
  | .vnan, h => by simp [noNaN] at h
  | .vstr s, _ => by simp [pyEq]
  | .vnone, _ => by simp [pyEq]
  | .vlist xs, h => by
    have hx : noNaNList xs = true := by simpa [noNaN] using h
    simpa [pyEq] using pyEqList_refl xs hx

theorem pyEqList_refl : (xs : List PyVal) → noNaNList xs = true → pyEqList xs xs = true
  | [], _ => by simp [pyEqList]
  | x :: xs, h => by
    have h1 : noNaN x = true := by
      have := h; simp [noNaNList] at this; exact this.1
    have h2 : noNaNList xs = true := by
      have := h; simp [noNaNList] at this; exact this.2
    simp [pyEqList, pyEq_refl x h1, pyEqList_refl xs h2]

end

lemma pfCloseTol_self (q : ℚ) : pfCloseTol (.fin q) (.fin q) = true := by
  simp [pfCloseTol, tol]

lemma elemMatch_refl (x : PyVal) (h : noNaN x = true) : elemMatch x x = .ok true := by
  cases x with
  | vfloat q => simp [elemMatch, isFloatInst, floatOfVal, pfCloseTol_self]
  | vnan => simp [noNaN] at h
  | vint n => simp [elemMatch, isFloatInst, pyEq]
  | vbool b => simp [elemMatch, isFloatInst, pyEq]
  | vstr s => simp [elemMatch, isFloatInst, pyEq]
  | vnone => simp [elemMatch, isFloatInst, pyEq]
  | vlist xs =>
    have hx : noNaNList xs = true := by simpa [noNaN] using h
    simpa [elemMatch, isFloatInst, pyEq] using pyEqList_refl xs hx

lemma matchAll_refl (xs : List PyVal) (h : noNaNList xs = true) :
    matchAll (xs.zip xs) = .ok true := by
  induction xs with
  | nil => simp [matchAll]
  | cons x rest ih =>
    have h1 : noNaN x = true := by
      have := h; simp [noNaNList] at this; exact this.1
    have h2 : noNaNList rest = true := by
      have := h; simp [noNaNList] at this; exact this.2
    show matchAll ((x, x) :: rest.zip rest) = .ok true
    simp only [matchAll, elemMatch_refl x h1]
    exact ih h2

/-- C6 counterexample: `matches(x, x)` fails at `x = float('nan')` — `nan`
is a float, so the tolerant branch fires, and `|nan - nan| < 1e-9` is
false. -/
theorem values_match_nan_not_refl : values_match PyVal.vnan PyVal.vnan = .ok false := rfl

/-- C6 (amended): the matcher is reflexive on every value that contains no
NaN: `matches(x, x)` returns `true` for all NaN-free `x`. -/
theorem values_match_refl_of_noNaN (x : PyVal) (h : noNaN x = true) :
    values_match x x = .ok true := by
  cases x with
  | vint n => simp [values_match, isFloatInst, isNumInst, pyEq]
  | vbool b => simp [values_match, isFloatInst, isNumInst, pyEq]
  | vfloat q =>
    simp [values_match, isFloatInst, isNumInst, pyAbsDiffLt, numOf, pfCloseTol_self]
  | vnan => simp [noNaN] at h
  | vstr s => simp [values_match, isFloatInst, isNumInst, pyEq]
  | vnone => simp [values_match, isFloatInst, isNumInst, pyEq]
  | vlist xs =>
    have hx : noNaNList xs = true := by simpa [noNaN] using h
    simp [values_match, isFloatInst, isNumInst, matchAll_refl xs hx]

/-- A NaN-free sample value. -/
def demoVal6 : PyVal := .vlist [.vint 1, .vfloat (1 / 2), .vstr "a", .vnone]

/-- Instantiation of `values_match_refl_of_noNaN`. -/
theorem values_match_refl_of_noNaN_witness :
    noNaN demoVal6 = true ∧ values_match demoVal6 demoVal6 = .ok true :=
  ⟨rfl, values_match_refl_of_noNaN demoVal6 rfl⟩

/-! ## C5: the matcher is not total -/

lemma floatOfVal_error_not_num (a : PyVal) (ex : PyExn)
    (h : floatOfVal a = .error ex) : isNumInst a = false := by
  cases a <;> simp_all [floatOfVal, isNumInst]

lemma floatOfVal_ok_of_float (e : PyVal) (h : isFloatInst e = true) :
    ∃ fe, floatOfVal e = .ok fe := by
  cases e <;> simp_all [isFloatInst, floatOfVal]

lemma elemMatch_error_shape (a e : PyVal) (ex : PyExn)
    (h : elemMatch a e = .error ex) :
    isFloatInst e = true ∧ isNumInst a = false := by
  by_cases hf : isFloatInst e = true
  · refine ⟨hf, ?_⟩
    cases ha : floatOfVal a with
    | error ex' =>
      exact floatOfVal_error_not_num a ex' ha
    | ok fa =>
      obtain ⟨fe, hfe⟩ := floatOfVal_ok_of_float e hf
      simp [elemMatch, hf, ha, hfe] at h
  · have hf' : isFloatInst e = false := by
      revert hf; cases isFloatInst e <;> simp
    simp [elemMatch, hf'] at h

lemma matchAll_error_mem (ps : List (PyVal × PyVal)) (ex : PyExn)
    (h : matchAll ps = .error ex) :
    ∃ p ∈ ps, elemMatch p.1 p.2 = .error ex := by
  induction ps with
  | nil => simp [matchAll] at h
  | cons p rest ih =>
    obtain ⟨a, e⟩ := p
    cases he : elemMatch a e with
    | error ex' =>
      have : ex' = ex := by simpa [matchAll, he] using h
      exact ⟨(a, e), by simp, by simp [he, this]⟩
    | ok b =>
      cases b with
      | false => simp [matchAll, he] at h
      | true =>
        have h' : matchAll rest = .error ex := by simpa [matchAll, he] using h
        obtain ⟨q, hq1, hq2⟩ := ih h'
        exact ⟨q, by simp [hq1], hq2⟩

/-- C5 (amended): the matcher is total — it returns a boolean — except when
`expected` is a list containing a float element whose corresponding element
of an equal-length `actual` list is not numeric; in exactly that situation
the comparison raises instead of returning a boolean, the harness catches
the exception, and the test is classified `ERROR` rather than `FAIL`. -/
theorem values_match_error_shape (a e : PyVal) (ex : PyExn) :
    (values_match a e = .error ex →
      ∃ av ev, a = .vlist av ∧ e = .vlist ev ∧ ev.length = av.length ∧
        ∃ p ∈ av.zip ev, isFloatInst p.2 = true ∧ isNumInst p.1 = false) ∧
    (∀ f t n, run_call f t.input = .ok a → values_match a t.expected = .error ex →
      (run_single_test f t n).status = Status.ERROR) := by
  constructor
  · intro h
    by_cases hg : (isFloatInst e && isNumInst a) = true
    · simp [values_match, hg] at h
    · have hg' : (isFloatInst e && isNumInst a) = false := by
        revert hg; cases (isFloatInst e && isNumInst a) <;> simp
      cases a with
      | vlist av =>
        cases e with
        | vlist ev =>
          by_cases hl : ev.length = av.length
          · have h' : matchAll (av.zip ev) = .error ex := by
              simpa [values_match, hg', hl] using h
            obtain ⟨p, hp1, hp2⟩ := matchAll_error_mem (av.zip ev) ex h'
            obtain ⟨hf, hn⟩ := elemMatch_error_shape p.1 p.2 ex hp2
            exact ⟨av, ev, rfl, rfl, hl, p, hp1, hf, hn⟩
          · simp [values_match, hg', hl] at h
        | vint m => simp [values_match, hg'] at h
        | vbool b => simp [values_match, hg'] at h
        | vfloat q => simp [values_match, hg'] at h
        | vnan => simp [values_match, hg'] at h
        | vstr s => simp [values_match, hg'] at h
        | vnone => simp [values_match, hg'] at h
      | vint m => cases e <;> simp [values_match, hg'] at h
      | vbool b => cases e <;> simp [values_match, hg'] at h
      | vfloat q => cases e <;> simp [values_match, hg'] at h
      | vnan => cases e <;> simp [values_match, hg'] at h
      | vstr s => cases e <;> simp [values_match, hg'] at h
      | vnone => cases e <;> simp [values_match, hg'] at h
  · intro f t n h1 h2
    simp [run_single_test, h1, h2]

/-- C5 counterexample: `actual = [None]`, `expected = [1.5]` — a mere value
mismatch under structural equality (`pyEq` is false), yet the comparison
raises (`float(None)` inside the list branch) and the harness classifies
the test `ERROR`, not `FAIL`. -/
theorem comparison_raises_classified_error_cex :
    values_match (PyVal.vlist [PyVal.vnone]) (PyVal.vlist [PyVal.vfloat (3 / 2)]) =
      .error ⟨true, "float() argument must be a string or a real number, not NoneType"⟩ ∧
    pyEq (PyVal.vlist [PyVal.vnone]) (PyVal.vlist [PyVal.vfloat (3 / 2)]) = false ∧
    (run_single_test demoF5 demoT5 1).status = Status.ERROR := by
  exact ⟨rfl, rfl, rfl⟩

/-- Instantiation of `values_match_error_shape`. -/
theorem values_match_error_shape_witness :
    ∃ av ev, PyVal.vlist [PyVal.vnone] = PyVal.vlist av ∧
      PyVal.vlist [PyVal.vfloat (3 / 2)] = PyVal.vlist ev ∧
      ev.length = av.length ∧
      ∃ p ∈ av.zip ev, isFloatInst p.2 = true ∧ isNumInst p.1 = false :=
  (values_match_error_shape (PyVal.vlist [PyVal.vnone])
      (PyVal.vlist [PyVal.vfloat (3 / 2)])
      ⟨true, "float() argument must be a string or a real number, not NoneType"⟩).1 rfl

/-! ## C7: empty generated test suite -/

/-- C7: when the external test generator returns no test cases, the run
returns `success = false` immediately, with no `attempts` value, an empty
history, and zero code-generation and debugging calls. -/
theorem empty_tests_early_return (env : Env) (maxA : Nat) (h : env.tests = []) :
    generate_verified_code env maxA =
      { success := false
        code := none
        attempts := none
        message := "Failed to generate test cases"
        error := none
        test_results := []
        history := []
        debug_report := none
        genCalls := 0
        debugCalls := 0 } := by
  simp [generate_verified_code, h]

/-- Instantiation of `empty_tests_early_return`. -/
theorem empty_tests_early_return_witness :
    generate_verified_code demoEnvEmpty 8 =
      { success := false
        code := none
        attempts := none
        message := "Failed to generate test cases"
        error := none
        test_results := []
        history := []
        debug_report := none
        genCalls := 0
        debugCalls := 0 } :=
  empty_tests_early_return demoEnvEmpty 8 rfl

/-! ## C2: history length and attempt indices -/

lemma run_loop_inv (env : Env) (maxA : Nat) :
    ∀ r attempt fb pfb lc lr le hist g d,
      attempt + r = maxA + 1 → 1 ≤ attempt →
      loopInv maxA attempt hist
        (run_loop env maxA r attempt fb pfb lc lr le hist g d) := by
  intro r
  induction r with
  | zero =>
    intro attempt fb pfb lc lr le hist g d h1 h2
    refine ⟨[], by simp [run_loop], by simp, ?_, ?_, ?_, ?_⟩
    · show (run_loop env maxA 0 attempt fb pfb lc lr le hist g d).attempts = _
      simp only [run_loop, List.length_nil]
      exact congrArg some (by omega)
    · intro _
      simp only [List.length_nil]
      omega
    · intro hs
      simp [run_loop] at hs
    · intro recd hrecd
      simp at hrecd
  | succ r ih =>
    intro attempt fb pfb lc lr le hist g d h1 h2
    simp only [run_loop]
    by_cases hv : (verify (env.gen attempt fb) env.tests).1 = true
    · simp only [hv, if_true]
      refine ⟨[⟨attempt, env.gen attempt fb, true,
        (verify (env.gen attempt fb) env.tests).2.1, none⟩], rfl, ?_, ?_, ?_, ?_, ?_⟩
      · simp [List.range']
      · show some attempt = _
        simp only [List.length_singleton]
        exact congrArg some (by omega)
      · intro hs
        simp at hs
      · intro _
        exact ⟨⟨attempt, env.gen attempt fb, true,
          (verify (env.gen attempt fb) env.tests).2.1, none⟩, by simp, rfl⟩
      · intro recd hrecd hp
        simp at hrecd
        subst hrecd
        refine ⟨rfl, ?_⟩
        simp only [List.length_singleton]
        omega
    · have hv' : (verify (env.gen attempt fb) env.tests).1 = false := by
        revert hv; cases (verify (env.gen attempt fb) env.tests).1 <;> simp
      simp only [hv', Bool.false_eq_true, if_false]
      have hstep : ∀ fb2 pfb2 g2 d2,
          loopInv maxA attempt hist
            (run_loop env maxA r (attempt + 1) fb2 pfb2 (some (env.gen attempt fb))
              (verify (env.gen attempt fb) env.tests).2.1
              (verify (env.gen attempt fb) env.tests).2.2
              (hist ++ [⟨attempt, env.gen attempt fb, false,
                (verify (env.gen attempt fb) env.tests).2.1,
                some (verify (env.gen attempt fb) env.tests).2.2⟩]) g2 d2) := by
        intro fb2 pfb2 g2 d2
        obtain ⟨tail, ht1, ht2, ht3, ht4, ht5, ht6⟩ :=
          ih (attempt + 1) fb2 pfb2 (some (env.gen attempt fb))
            (verify (env.gen attempt fb) env.tests).2.1
            (verify (env.gen attempt fb) env.tests).2.2
            (hist ++ [⟨attempt, env.gen attempt fb, false,
              (verify (env.gen attempt fb) env.tests).2.1,
              some (verify (env.gen attempt fb) env.tests).2.2⟩])
            g2 d2 (by omega) (by omega)
        refine ⟨⟨attempt, env.gen attempt fb, false,
          (verify (env.gen attempt fb) env.tests).2.1,
          some (verify (env.gen attempt fb) env.tests).2.2⟩ :: tail,
          ?_, ?_, ?_, ?_, ?_, ?_⟩
        · simpa using ht1
        · simp only [List.map_cons, List.length_cons]
          rw [List.range']
          simpa using ht2
        · rw [ht3]
          refine congrArg some ?_
          simp only [List.length_cons]
          omega
        · intro hs
          have h4 := ht4 hs
          simp only [List.length_cons]
          omega
        · intro hs
          obtain ⟨recd, hm, hp⟩ := ht5 hs
          exact ⟨recd, by simp [hm], hp⟩
        · intro recd hrecd hp
          rcases List.mem_cons.mp hrecd with hx | hx
          · exfalso
            rw [hx] at hp
            simp at hp
          · obtain ⟨hsucc, hatt⟩ := ht6 recd hx hp
            refine ⟨hsucc, ?_⟩
            rw [hatt]
            simp only [List.length_cons]
            omega
      by_cases hlt : attempt < maxA
      · simpa [hlt] using hstep _ _ _ _
      · simpa [hlt] using hstep _ _ _ _

/-- C2: for every completed run on a non-empty test suite, the returned
`attempts` value equals the history length, the attempt indices in the
history are `1..k` consecutive with no gaps, a failure run has
`k = max_attempts`, and a successful run's `attempts` value is the index of
the (final, unique) passing attempt. -/
theorem history_length_matches_attempts (env : Env) (maxA : Nat)
    (h : env.tests ≠ []) (_hA : 1 ≤ maxA) :
    ∃ k,
      (generate_verified_code env maxA).attempts = some k ∧
      (generate_verified_code env maxA).history.length = k ∧
      (generate_verified_code env maxA).history.map (fun a => a.attempt) =
        List.range' 1 k ∧
      ((generate_verified_code env maxA).success = false → k = maxA) ∧
      ((generate_verified_code env maxA).success = true →
        ∃ recd ∈ (generate_verified_code env maxA).history,
          recd.passed = true ∧ recd.attempt = k) := by
  have hne : ¬ env.tests.length = 0 := fun hc => h (List.length_eq_zero.mp hc)
  obtain ⟨tail, ht1, ht2, ht3, ht4, ht5, ht6⟩ :=
    run_loop_inv env maxA maxA 1 none none none [] "Unknown error" [] 0 0
      (by omega) (by omega)
  have hgen : generate_verified_code env maxA =
      run_loop env maxA maxA 1 none none none [] "Unknown error" [] 0 0 := by
    simp [generate_verified_code, hne]
  rw [hgen]
  refine ⟨tail.length, by simpa using ht3, ?_, ?_, ?_, ?_⟩
  · rw [ht1]; simp
  · rw [ht1]; simpa using ht2
  · intro hs; have := ht4 hs; simpa using this
  · intro hs
    obtain ⟨recd, hm, hp⟩ := ht5 hs
    obtain ⟨_, hatt⟩ := ht6 recd hm hp
    exact ⟨recd, by rw [ht1]; simpa using hm, hp, by simpa using hatt⟩

/-- Instantiation of `history_length_matches_attempts` on an environment
that succeeds at the first attempt. -/
theorem history_length_matches_attempts_witness :
    ∃ k,
      (generate_verified_code demoEnvOk 8).attempts = some k ∧
      (generate_verified_code demoEnvOk 8).history.length = k ∧
      (generate_verified_code demoEnvOk 8).history.map (fun a => a.attempt) =
        List.range' 1 k ∧
      ((generate_verified_code demoEnvOk 8).success = false → k = 8) ∧
      ((generate_verified_code demoEnvOk 8).success = true →
        ∃ recd ∈ (generate_verified_code demoEnvOk 8).history,
          recd.passed = true ∧ recd.attempt = k) :=
  history_length_matches_attempts demoEnvOk 8 (by simp [demoEnvOk]) (by omega)

/-! ## C8: three-attempt always-failing run -/

/-- The attempts line of the failure report (`"🔄 Attempts Made: a/m"`,
preceded by the f-string's leading newline). -/
def attemptsLine (a m : Nat) : String :=
  "\n🔄 Attempts Made: " ++ toString a ++ "/" ++ toString m

lemma attemptsLine_mem_report (reprI : TestInput → String) (reprV : PyVal → String)
    (missing : List String) (avail : String → Bool) (a m : Nat) (err : String)
    (trs : List TestOutcome) (code : String) :
    attemptsLine a m ∈ generate_report reprI reprV missing avail a m err trs code := by
  simp [generate_report, attemptsLine]

lemma run_loop_allfail (env : Env) (maxA : Nat)
    (hfail : ∀ a fb, (verify (env.gen a fb) env.tests).1 = false) :
    ∀ r attempt fb pfb lc lr le hist g d,
      attempt + r = maxA + 1 → 1 ≤ attempt → (r = 0 → lc.isSome) →
      (run_loop env maxA r attempt fb pfb lc lr le hist g d).success = false ∧
      (run_loop env maxA r attempt fb pfb lc lr le hist g d).genCalls = g + r ∧
      (run_loop env maxA r attempt fb pfb lc lr le hist g d).debugCalls =
        d + (maxA - attempt) ∧
      (run_loop env maxA r attempt fb pfb lc lr le hist g d).attempts = some maxA ∧
      ∃ ls, (run_loop env maxA r attempt fb pfb lc lr le hist g d).debug_report =
          some (String.intercalate "\n" ls) ∧ attemptsLine maxA maxA ∈ ls := by
  intro r
  induction r with
  | zero =>
    intro attempt fb pfb lc lr le hist g d h1 h2 h3
    obtain ⟨c, hc⟩ := Option.isSome_iff_exists.mp (h3 rfl)
    subst hc
    refine ⟨rfl, rfl, ?_, rfl, ?_⟩
    · show d = d + (maxA - attempt)
      omega
    · exact ⟨generate_report env.reprI env.reprV
        (env.missingMods le lr c.src) env.modAvail maxA maxA le lr c.src,
        rfl, attemptsLine_mem_report _ _ _ _ _ _ _ _ _⟩
  | succ r ih =>
    intro attempt fb pfb lc lr le hist g d h1 h2 h3
    simp only [run_loop]
    have hv := hfail attempt fb
    simp only [hv, Bool.false_eq_true, if_false]
    have hstep : ∀ fb2 pfb2 g2 d2,
        (run_loop env maxA r (attempt + 1) fb2 pfb2 (some (env.gen attempt fb))
          (verify (env.gen attempt fb) env.tests).2.1
          (verify (env.gen attempt fb) env.tests).2.2
          (hist ++ [⟨attempt, env.gen attempt fb, false,
            (verify (env.gen attempt fb) env.tests).2.1,
            some (verify (env.gen attempt fb) env.tests).2.2⟩]) g2 d2).success = false ∧
        (run_loop env maxA r (attempt + 1) fb2 pfb2 (some (env.gen attempt fb))
          (verify (env.gen attempt fb) env.tests).2.1
          (verify (env.gen attempt fb) env.tests).2.2
          (hist ++ [⟨attempt, env.gen attempt fb, false,
            (verify (env.gen attempt fb) env.tests).2.1,
            some (verify (env.gen attempt fb) env.tests).2.2⟩]) g2 d2).genCalls = g2 + r ∧
        (run_loop env maxA r (attempt + 1) fb2 pfb2 (some (env.gen attempt fb))
          (verify (env.gen attempt fb) env.tests).2.1
          (verify (env.gen attempt fb) env.tests).2.2
          (hist ++ [⟨attempt, env.gen attempt fb, false,
            (verify (env.gen attempt fb) env.tests).2.1,
            some (verify (env.gen attempt fb) env.tests).2.2⟩]) g2 d2).debugCalls =
          d2 + (maxA - (attempt + 1)) ∧
        (run_loop env maxA r (attempt + 1) fb2 pfb2 (some (env.gen attempt fb))
          (verify (env.gen attempt fb) env.tests).2.1
          (verify (env.gen attempt fb) env.tests).2.2
          (hist ++ [⟨attempt, env.gen attempt fb, false,
            (verify (env.gen attempt fb) env.tests).2.1,
            some (verify (env.gen attempt fb) env.tests).2.2⟩]) g2 d2).attempts =
          some maxA ∧
        ∃ ls, (run_loop env maxA r (attempt + 1) fb2 pfb2 (some (env.gen attempt fb))
          (verify (env.gen attempt fb) env.tests).2.1
          (verify (env.gen attempt fb) env.tests).2.2
          (hist ++ [⟨attempt, env.gen attempt fb, false,
            (verify (env.gen attempt fb) env.tests).2.1,
            some (verify (env.gen attempt fb) env.tests).2.2⟩]) g2 d2).debug_report =
            some (String.intercalate "\n" ls) ∧ attemptsLine maxA maxA ∈ ls := by
      intro fb2 pfb2 g2 d2
      exact ih (attempt + 1) fb2 pfb2 (some (env.gen attempt fb))
        (verify (env.gen attempt fb) env.tests).2.1
        (verify (env.gen attempt fb) env.tests).2.2
        (hist ++ [⟨attempt, env.gen attempt fb, false,
          (verify (env.gen attempt fb) env.tests).2.1,
          some (verify (env.gen attempt fb) env.tests).2.2⟩])
        g2 d2 (by omega) (by omega) (by simp)
    by_cases hlt : attempt < maxA
    · simp only [hlt, if_true]
      refine ⟨(hstep _ _ _ _).1, ?_, ?_, (hstep _ _ _ _).2.2.2.1, ?_⟩
      · rw [(hstep _ _ _ _).2.1]; omega
      · rw [(hstep _ _ _ _).2.2.1]; omega
      · exact (hstep _ _ _ _).2.2.2.2
    · simp only [hlt, if_false]
      refine ⟨(hstep _ _ _ _).1, ?_, ?_, (hstep _ _ _ _).2.2.2.1, ?_⟩
      · rw [(hstep _ _ _ _).2.1]; omega
      · rw [(hstep _ _ _ _).2.2.1]; omega
      · exact (hstep _ _ _ _).2.2.2.2

/-- C8: with `max_attempts = 3` and every attempt's verification failing,
the loop performs exactly 3 generate/verify cycles and exactly 2 debugging
cycles, returns `success = false` with `attempts = 3`, and the generated
report contains the line "Attempts Made: 3/3". -/
theorem three_attempt_failure_trace (env : Env) (h : env.tests ≠ [])
    (hfail : ∀ a fb, (verify (env.gen a fb) env.tests).1 = false) :
    (generate_verified_code env 3).success = false ∧
    (generate_verified_code env 3).genCalls = 3 ∧
    (generate_verified_code env 3).debugCalls = 2 ∧
    (generate_verified_code env 3).attempts = some 3 ∧
    ∃ ls, (generate_verified_code env 3).debug_report =
        some (String.intercalate "\n" ls) ∧ "\n🔄 Attempts Made: 3/3" ∈ ls := by
  have hne : ¬ env.tests.length = 0 := fun hc => h (List.length_eq_zero.mp hc)
  have hgen : generate_verified_code env 3 =
      run_loop env 3 3 1 none none none [] "Unknown error" [] 0 0 := by
    simp [generate_verified_code, hne]
  obtain ⟨s1, s2, s3, s4, s5⟩ :=
    run_loop_allfail env 3 hfail 3 1 none none none [] "Unknown error" [] 0 0
      (by omega) (by omega) (by omega)
  obtain ⟨ls, hls1, hls2⟩ := s5
  have hline : attemptsLine 3 3 = "\n🔄 Attempts Made: 3/3" := by decide
  rw [hgen]
  exact ⟨s1, s2, s3, s4, ls, hls1, hline ▸ hls2⟩

/-- Instantiation of `three_attempt_failure_trace` on an environment whose
generator always produces a syntactically invalid candidate. -/
theorem three_attempt_failure_trace_witness :
    (generate_verified_code demoEnvFail 3).success = false ∧
    (generate_verified_code demoEnvFail 3).genCalls = 3 ∧
    (generate_verified_code demoEnvFail 3).debugCalls = 2 ∧
    (generate_verified_code demoEnvFail 3).attempts = some 3 ∧
    ∃ ls, (generate_verified_code demoEnvFail 3).debug_report =
        some (String.intercalate "\n" ls) ∧ "\n🔄 Attempts Made: 3/3" ∈ ls :=
  three_attempt_failure_trace demoEnvFail (by simp [demoEnvFail])
    (fun _ _ => rfl)

end CV
